import Mathlib

/-!
# Hazard Log Generator — shallow embedding

A Lean model of `safety/hazard-analysis/sub-prompts/hazard_log_generator.py`:
the structured-document template engine that parses a markdown template into
typed fields, resolves supplied values (select / multiselect / calculate /
code / icon), and renders a filled hazard-log document.

Files are modelled by their line lists (the result of Python `splitlines()`,
so lines contain no newline); the caller-supplied `values` dict is modelled
as a function from field name to an optional `Value` (a key absent from the
dict and a key mapped to Python `None` are indistinguishable through
`dict.get`, which is the only access the code performs).
-/

/-- The eight field kinds of the template DSL (`FieldType` in the source). -/
inductive FieldType where
  | text
  | select
  | multiselect
  | calculate
  | code
  | icon
  | separator
  | prose
deriving DecidableEq, Repr

/-- A single option in a select/multiselect/calculate field (`FieldOption`). -/
structure FieldOption where
  key : String
  label : String
  description : String
  matchers : List String := []
  raw_line : String := ""
deriving DecidableEq, Repr

/-- A parsed field from the template (`TemplateField`). -/
structure TemplateField where
  name : String
  field_type : FieldType
  labels : List String := []
  options : List FieldOption := []
  placeholder_text : String := ""
  uses_hazard_types : Bool := false
  prose_lines : List String := []
deriving DecidableEq, Repr

/-- A caller-supplied value: Python `str`, `int`, or `list` (of values). -/
inductive Value where
  | str (s : String)
  | int (n : Int)
  | list (vs : List Value)

/-- The supplied values mapping.  `none` covers both "key absent from the
dict" and "key mapped to Python `None`" — the code only reads the dict
through `values.get(name)`, which conflates the two. -/
def Values := String → Option Value

mutual

/-- Python `str()` on a supplied value. -/
def pyStr : Value → String
  | .str s => s
  | .int n => toString n
  | .list vs => "[" ++ String.intercalate ", " (pyReprList vs) ++ "]"

/-- Python `repr()` as used by `str()` on list elements (quoting is modelled
without escape sequences; no template value contains a quote). -/
def pyRepr : Value → String
  | .str s => "'" ++ s ++ "'"
  | .int n => toString n
  | .list vs => "[" ++ String.intercalate ", " (pyReprList vs) ++ "]"

def pyReprList : List Value → List String
  | [] => []
  | v :: vs => pyRepr v :: pyReprList vs

end

/-- Python `\s` (ASCII range, as exercised by the templates). -/
def isPySpace (c : Char) : Bool :=
  c = ' ' || c = '\t' || c = '\n' || c = '\r' || c = '\x0b' || c = '\x0c'

/-- Python `\w` (ASCII range, as exercised by the templates). -/
def isPyWord (c : Char) : Bool := c.isAlphanum || c = '_'

/-- Python `str.strip()`. -/
def pyStrip (s : String) : String :=
  ⟨((s.data.dropWhile isPySpace).reverse.dropWhile isPySpace).reverse⟩

/-- Python `str.startswith(pre)`. -/
def strStartsWith (s pre : String) : Bool := pre.data.isPrefixOf s.data

/-- Python slicing `s[n:]` (by code point, as Python indexes strings). -/
def strDrop (s : String) (n : Nat) : String := ⟨s.data.drop n⟩

/-- Length of the maximal run of characters satisfying `p`. -/
def runLen (p : Char → Bool) : List Char → Nat
  | [] => 0
  | c :: cs => if p c then runLen p cs + 1 else 0

/-- Backtracking driver: try the continuation `k` on the split of `cs` at
each length in `ns` (in order), returning the first success. -/
def tryAt (cs : List Char) (k : List Char → List Char → Option α) :
    List Nat → Option α
  | [] => none
  | n :: ns =>
    match k (cs.take n) (cs.drop n) with
    | some r => some r
    | none => tryAt cs k ns

/-- Candidate lengths for a greedy `X*` over a character class (longest
first, down to zero). -/
def greedyStar (p : Char → Bool) (cs : List Char) : List Nat :=
  (List.range (runLen p cs + 1)).reverse

/-- Candidate lengths for a greedy `X+` over a character class (longest
first, down to one). -/
def greedyPlus (p : Char → Bool) (cs : List Char) : List Nat :=
  (List.range' 1 (runLen p cs)).reverse

/-- Candidate lengths for a lazy `X+?` over a character class (shortest
first, from one). -/
def lazyPlus (p : Char → Bool) (cs : List Char) : List Nat :=
  List.range' 1 (runLen p cs)

/-- `\s*$`: the remaining characters are all whitespace. -/
def optTail (g1 g2 g3 g4 : List Char) (rest : List Char) :
    Option (String × String × String × String) :=
  if rest.all isPySpace then some (⟨g1⟩, ⟨g2⟩, ⟨g3⟩, ⟨g4⟩) else none

/-- The optional matcher-list suffix `(?:\s*\[([^\]]+)\])?` followed by
`\s*$` — the greedy option tries the bracketed branch before the empty one. -/
def optBracket (g1 g2 g3 : List Char) (rest : List Char) :
    Option (String × String × String × String) :=
  (tryAt rest (fun _ rest7 =>
      match rest7 with
      | '[' :: rest8 =>
        tryAt rest8 (fun g4 rest9 =>
            match rest9 with
            | ']' :: rest10 => optTail g1 g2 g3 g4 rest10
            | _ => none)
          (greedyPlus (fun c => c ≠ ']') rest8)
      | _ => none)
    (greedyStar isPySpace rest))
  <|> optTail g1 g2 g3 [] rest

/-- The optional description `(?::\s*(.+?))?` — greedy option: the colon
branch is tried before the empty one; `.` excludes newline; the description
itself is a lazy `+?`. -/
def optDescr (g1 g2 : List Char) (rest : List Char) :
    Option (String × String × String × String) :=
  (match rest with
   | ':' :: rest5a =>
     tryAt rest5a (fun _ rest5b =>
         tryAt rest5b (fun g3 rest6 => optBracket g1 g2 g3 rest6)
           (lazyPlus (fun c => c ≠ '\n') rest5b))
       (greedyStar isPySpace rest5a)
   | _ => none)
  <|> optBracket g1 g2 [] rest

/-- `re.match(r"^(\w+)\s*-\s*([^:\[]+?)(?::\s*(.+?))?(?:\s*\[([^\]]+)\])?\s*$", s)`
from `parse_template`, with Python's left-to-right backtracking order.
Returns `(group1, group2, group3 or "", group4 or "")`; groups 3 and 4 are
`+`-quantified so an empty string unambiguously encodes an absent group. -/
def matchOptionLine (s : String) : Option (String × String × String × String) :=
  let cs := s.data
  tryAt cs (fun g1 rest1 =>
      tryAt rest1 (fun _ rest2 =>
          match rest2 with
          | '-' :: rest3 =>
            tryAt rest3 (fun _ rest4 =>
                tryAt rest4 (fun g2 rest5 => optDescr g1 g2 rest5)
                  (lazyPlus (fun c => c ≠ ':' && c ≠ '[') rest4))
              (greedyStar isPySpace rest3)
          | _ => none)
        (greedyStar isPySpace rest1))
    (greedyPlus isPyWord cs)

/-- `re.match(r"^\[(multiselect|select|calculate|code)\](.*)$", s)`:
the field-type marker and the remainder of the line. -/
def matchTypeMarker (s : String) : Option (FieldType × String) :=
  if strStartsWith s "[multiselect]" then some (.multiselect, strDrop s 13)
  else if strStartsWith s "[select]" then some (.select, strDrop s 8)
  else if strStartsWith s "[calculate]" then some (.calculate, strDrop s 11)
  else if strStartsWith s "[code]" then some (.code, strDrop s 6)
  else none

/-- `re.findall(r"\[([A-Z])\]", s)`: every non-overlapping `[X]` with `X`
an upper-case letter, scanning left to right. -/
def findLabels : List Char → List String
  | '[' :: c :: ']' :: rest =>
    if c.isUpper then (⟨[c]⟩ : String) :: findLabels rest
    else findLabels (c :: ']' :: rest)
  | _ :: rest => findLabels rest
  | [] => []
termination_by cs => cs.length

/-- `matchers = [m.strip() for m in matchers_str.split(",") if m.strip()]`. -/
def parseMatchers (s : String) : List String :=
  ((s.splitOn ",").map pyStrip).filter (fun m => m ≠ "")

/-- `parse_hazard_types`: keep the stripped lines that start with `"- "`,
dropping the marker and stripping the remainder, in file order. -/
def parse_hazard_types (lines : List String) : List String :=
  lines.foldl
    (fun types line =>
      if strStartsWith (pyStrip line) "- " then
        types ++ [pyStrip (strDrop (pyStrip line) 2)]
      else types)
    []

/-- The synthesized option text `f"{opt.key} - {opt.label}: {opt.description}"`
used whenever an option has no captured raw line. -/
def synthOption (opt : FieldOption) : String :=
  opt.key ++ " - " ++ opt.label ++ ": " ++ opt.description

/-- `opt.raw_line or synthesized` — Python `or` falls through on the empty
string. -/
def rawOrSynth (opt : FieldOption) : String :=
  if opt.raw_line = "" then synthOption opt else opt.raw_line

/-- `HazardLogGenerator._format_select_value`. -/
def format_select_value (field_def : TemplateField) (value : Option Value) :
    String :=
  match value with
  | none => "TBC"
  | some v =>
    let key_str := pyStr v
    match field_def.options.find? (fun opt => opt.key == key_str) with
    | some opt => rawOrSynth opt
    | none => pyStr v ++ " (unrecognised option)"

/-- One entry of `HazardLogGenerator._format_multiselect_value`'s loop:
the first option whose key equals the entry's string form, else the
literal bullet. -/
def formatMultiselectEntry (field_def : TemplateField) (v : Value) : String :=
  match field_def.options.find? (fun opt => opt.key == pyStr v) with
  | some opt => rawOrSynth opt
  | none => "- " ++ pyStr v

/-- `HazardLogGenerator._format_multiselect_value` (`if not values` covers
both `None` and the empty list). -/
def format_multiselect_value (field_def : TemplateField)
    (values : Option (List Value)) : String :=
  match values with
  | none => "None selected"
  | some vs =>
    if vs.isEmpty then "None selected"
    else String.intercalate "\n" (vs.map (formatMultiselectEntry field_def))

/-- The reverse index of `_format_calculate_value`: for every non-calculate
field, for every label it declares, map label → field; a Python dict
assignment lets later fields win, so the lookup finds the last declarer. -/
def labelToField (allFields : List TemplateField) (lbl : String) :
    Option TemplateField :=
  ((allFields.filter (fun f => f.field_type ≠ FieldType.calculate)).reverse).find?
    (fun f => f.labels.contains lbl)

/-- The per-label resolved key of `_format_calculate_value`: the owning
field's supplied value as a string, or `none` when the label has no owner
or the owner has no supplied value. -/
def labelValue (allFields : List TemplateField) (values : Values)
    (lbl : String) : Option String :=
  match labelToField allFields lbl with
  | some ref_field => (values ref_field.name).map pyStr
  | none => none

/-- `HazardLogGenerator._format_calculate_value`.  Note the short-circuit
tests only `v is None`; a supplied value equal to the string `"TBC"`
survives into the composite key. -/
def format_calculate_value (allFields : List TemplateField)
    (field_def : TemplateField) (values : Values) : String :=
  if field_def.labels.length < 2 then
    "Cannot compute: insufficient labels defined"
  else if field_def.labels.any
      (fun lbl => (labelValue allFields values lbl).isNone) then
    "TBC (awaiting scoring of dependencies)"
  else
    let target := String.intercalate "-"
      (field_def.labels.map
        (fun lbl => lbl ++ (labelValue allFields values lbl).getD ""))
    match field_def.options.find? (fun opt => opt.matchers.contains target) with
    | some opt => rawOrSynth opt
    | none => "No matching risk level for " ++ target

/-- The free function `calculate_risk_score` — the sibling of
`_format_calculate_value` that does treat a `"TBC"` key as unscored. -/
def calculate_risk_score (likelihood_key severity_key : Option String)
    (calculate_field : TemplateField) : Option FieldOption :=
  match likelihood_key, severity_key with
  | none, _ => none
  | _, none => none
  | some lk, some sk =>
    if lk = "" || sk = "" then none
    else if lk = "TBC" || sk = "TBC" then none
    else
      let target := "L" ++ lk ++ "-S" ++ sk
      calculate_field.options.find? (fun opt => opt.matchers.contains target)

/-- `UTILITY_LABEL_ICONS.get(v, "❓")` — the dict's keys are the ints 1–3. -/
def iconGlyph (v : Value) : String :=
  match v with
  | .int 1 => "⚠️"
  | .int 2 => "🆕"
  | .int 3 => "🚫"
  | _ => "❓"

/-- The line-scanner state of `parse_template`.  In the source the
`current_field` reference always aliases the most recently appended field,
so the state keeps the fields in reverse order (`revFields`, head = most
recent) together with a flag saying whether the head is the field currently
being extended (`current` ↔ `current_field is not None`) and the
`in_field_type_options` flag. -/
structure ParseState where
  revFields : List TemplateField
  current : Bool
  inOpts : Bool
deriving DecidableEq, Repr

/-- A fresh structural marker field. -/
def mkMarker (nm : String) (ft : FieldType) : TemplateField :=
  { name := nm, field_type := ft }

/-- A fresh prose block holding one line. -/
def mkProse (stripped : String) : TemplateField :=
  { name := "__prose__", field_type := .prose, prose_lines := [stripped] }

/-- The placeholder-or-prose fallthrough at the end of the in-field branch
of `parse_template`. -/
def proseOrPlaceholder (st : ParseState) (f : TemplateField)
    (rest : List TemplateField) (stripped : String) : ParseState :=
  if f.field_type = FieldType.text ∧ st.inOpts = false then
    { st with revFields :=
        { f with placeholder_text :=
            if f.placeholder_text = "" then stripped
            else f.placeholder_text ++ "\n" ++ stripped } :: rest }
  else
    { st with revFields :=
        { f with prose_lines := f.prose_lines ++ [stripped] } :: rest }

/-- The in-field part of the scanner (`current_field is not None`), given
the current field `f` (the head of `revFields`) and the remaining fields. -/
def parseFieldLine (st : ParseState) (f : TemplateField)
    (rest : List TemplateField) (stripped : String) : ParseState :=
  match matchTypeMarker stripped with
  | some (ft, remainder) =>
    { revFields :=
        { f with field_type := ft,
                 labels := findLabels (pyStrip remainder).data } :: rest,
      current := st.current, inOpts := true }
  | none =>
    if stripped = "[hazard-types]" then
      { st with revFields := { f with uses_hazard_types := true } :: rest }
    else if st.inOpts then
      match matchOptionLine stripped with
      | some (key, lbl, descr, matchersStr) =>
        { st with revFields :=
            { f with options := f.options ++
                [{ key := key, label := pyStrip lbl,
                   description := pyStrip descr,
                   matchers := parseMatchers matchersStr,
                   raw_line := stripped }] } :: rest }
      | none =>
        if stripped = "TBC" then
          { st with revFields :=
              { f with options := f.options ++
                  [{ key := "TBC", label := "TBC",
                     description := "To be confirmed",
                     matchers := [], raw_line := stripped }] } :: rest }
        else proseOrPlaceholder st f rest stripped
    else proseOrPlaceholder st f rest stripped

/-- The prose-outside-any-field part of the scanner (`current_field is
None`): extend a trailing prose block or start a new one. -/
def proseOutside (st : ParseState) (stripped : String) : ParseState :=
  match st.revFields with
  | last :: rest =>
    if last.field_type = FieldType.prose then
      { st with revFields :=
          { last with prose_lines := last.prose_lines ++ [stripped] } :: rest }
    else if last.field_type = FieldType.separator then
      { st with revFields := mkProse stripped :: last :: rest }
    else
      { st with revFields := mkProse stripped :: last :: rest }
  | [] => { st with revFields := [mkProse stripped] }

/-- One iteration of `parse_template`'s line loop. -/
def parseStep (st : ParseState) (line : String) : ParseState :=
  let stripped := pyStrip line
  if strStartsWith stripped "<!-- [icon] -->" then
    { revFields := mkMarker "__icon__" .icon :: st.revFields,
      current := false, inOpts := false }
  else if stripped = "---" then
    { revFields := mkMarker "__separator__" .separator :: st.revFields,
      current := false, inOpts := false }
  else if strStartsWith stripped "### " then
    { revFields :=
        { name := pyStrip (strDrop stripped 4), field_type := .text }
          :: st.revFields,
      current := true, inOpts := false }
  else if stripped = "" then st
  else if st.current then
    match st.revFields with
    | f :: rest => parseFieldLine st f rest stripped
    | [] => st  -- unreachable from the initial state
  else proseOutside st stripped

/-- The scanner's loop over the template's lines. -/
def parseLinesGo : ParseState → List String → ParseState
  | st, [] => st
  | st, l :: ls => parseLinesGo (parseStep st l) ls

/-- `parse_template`, over the template's line list. -/
def parse_template (lines : List String) : List TemplateField :=
  (parseLinesGo ⟨[], false, false⟩ lines).revFields.reverse

/-- The FieldOption materialized for one taxonomy category at Generator
construction: `key = label = category`, empty description,
`raw_line = "- {category}"`. -/
def mkTaxonomyOption (ht : String) : FieldOption :=
  { key := ht, label := ht, description := "", matchers := [],
    raw_line := "- " ++ ht }

/-- The taxonomy injection applied to one field in
`HazardLogGenerator.__init__`. -/
def injectField (hazard_types : List String) (f : TemplateField) :
    TemplateField :=
  if f.uses_hazard_types then
    { f with options := hazard_types.map mkTaxonomyOption }
  else f

/-- The taxonomy-injection loop of `HazardLogGenerator.__init__`. -/
def injectHazardTypes (hazard_types : List String)
    (fields : List TemplateField) : List TemplateField :=
  fields.map (injectField hazard_types)

/-- The field sequence a constructed generator holds: parsed template with
taxonomy options injected. -/
def generatorFields (template_lines taxonomy_lines : List String) :
    List TemplateField :=
  injectHazardTypes (parse_hazard_types taxonomy_lines)
    (parse_template template_lines)

/-- `True` for the field kinds `generate` renders under a `### {name}`
sub-header (everything except the icon / separator / prose markers). -/
def isNamedFieldB (f : TemplateField) : Bool :=
  match f.field_type with
  | .icon | .separator | .prose => false
  | _ => true

/-- The trailing-prose suffix `generate` appends after a named field's
resolved value. -/
def proseTail (f : TemplateField) : List String :=
  if f.prose_lines.isEmpty then [] else f.prose_lines ++ [""]

/-- The value block `generate` emits for a named field (everything between
the blank line after the sub-header and the trailing prose). -/
def renderValueBlock (allFields : List TemplateField) (values : Values)
    (field_def : TemplateField) : List String :=
  match field_def.field_type with
  | .text =>
    [(match values field_def.name with
      | some v => pyStr v
      | none => field_def.placeholder_text), ""]
  | .select => [format_select_value field_def (values field_def.name), ""]
  | .multiselect =>
    (match values field_def.name with
     | some (.list vs) => [format_multiselect_value field_def (some vs), ""]
     | some v => [format_multiselect_value field_def (some [v]), ""]
     | none => ["None selected", ""])
  | .calculate => [format_calculate_value allFields field_def values, ""]
  | .code =>
    (match values field_def.name with
     | some (.list vs) =>
       if vs.isEmpty then ["No code references yet.", ""]
       else vs.map (fun r => "- `" ++ pyStr r ++ "`") ++ [""]
     | some (.str s) =>
       if s = "" then ["No code references yet.", ""]
       else ["- `" ++ s ++ "`", ""]
     | some _ => ["No code references yet.", ""]
     | none => ["No code references yet.", ""])
  | _ => []

/-- The lines `generate` emits for one field of the sequence. -/
def renderField (allFields : List TemplateField) (values : Values)
    (field_def : TemplateField) : List String :=
  if field_def.field_type = FieldType.icon then
    (match values "General utility label" with
     | some (.list us) =>
       if us.isEmpty then ["<!-- ⚠️ -->", ""]
       else ["<!-- " ++ String.intercalate " " (us.map iconGlyph) ++ " -->", ""]
     | some _ => ["<!-- ⚠️ -->", ""]
     | none => ["<!-- ⚠️ -->", ""])
  else if field_def.field_type = FieldType.separator then ["---", ""]
  else if field_def.field_type = FieldType.prose then
    field_def.prose_lines ++ [""]
  else
    ["### " ++ field_def.name, ""]
      ++ renderValueBlock allFields values field_def
      ++ proseTail field_def

/-- The optional `# {hazardId}` header of `generate` (`if hazard_id:` is
false for both `None` and the empty string). -/
def hazardHeader (hazard_id : Option String) : List String :=
  match hazard_id with
  | some h => if h = "" then [] else ["# " ++ h, ""]
  | none => []

/-- `HazardLogGenerator.generate`, as the list of output lines (the file
write and directory creation are outside the model; the written text is
these lines joined with `"\n"`). -/
def generate_lines (allFields : List TemplateField) (values : Values)
    (hazard_id : Option String) : List String :=
  hazardHeader hazard_id
    ++ (allFields.map (renderField allFields values)).flatten

/-- Names of the named fields of a sequence, in order. -/
def namedNames (fields : List TemplateField) : List String :=
  (fields.filter isNamedFieldB).map (fun f => f.name)

/-- The header name a template line contributes: `### Name` lines and
nothing else. -/
def headerName (line : String) : Option String :=
  let stripped := pyStrip line
  if strStartsWith stripped "### " then some (pyStrip (strDrop stripped 4))
  else none

/-- Modelled from the spec's words for comparison with
`parse_hazard_types`: "reads lines beginning with `- `, strips the marker,
preserves declaration order, ignores everything else". -/
def specTaxonomyCategories (lines : List String) : List String :=
  lines.filterMap (fun line =>
    if strStartsWith (pyStrip line) "- " then
      some (pyStrip (strDrop (pyStrip line) 2))
    else none)

/-! ## Concrete sample data (template-shaped inputs used by the closed
evaluations below) -/

/-- `1 - Very low: Almost never` as parsed. -/
def sampleOpt1 : FieldOption :=
  { key := "1", label := "Very low", description := "Almost never",
    raw_line := "1 - Very low: Almost never" }

/-- `2 - Low: Unlikely` as parsed. -/
def sampleOpt2 : FieldOption :=
  { key := "2", label := "Low", description := "Unlikely",
    raw_line := "2 - Low: Unlikely" }

/-- `3 - Medium: Possible` as parsed. -/
def sampleOpt3 : FieldOption :=
  { key := "3", label := "Medium", description := "Possible",
    raw_line := "3 - Medium: Possible" }

/-- A select field labelled `[L]` with options keyed "1","2","3". -/
def sampleSelectField : TemplateField :=
  { name := "Likelihood scoring", field_type := .select, labels := ["L"],
    options := [sampleOpt1, sampleOpt2, sampleOpt3] }

/-- A select field labelled `[S]` with options keyed "1","2","3". -/
def sampleSevField : TemplateField :=
  { name := "Severity scoring", field_type := .select, labels := ["S"],
    options := [sampleOpt1, sampleOpt2, sampleOpt3] }

/-- A calculate field `[calculate] [L] [S]` with a two-band risk matrix. -/
def sampleCalcField : TemplateField :=
  { name := "Labelling", field_type := .calculate, labels := ["L", "S"],
    options :=
      [{ key := "1", label := "Low risk", description := "",
         matchers := ["L1-S1", "L1-S2"],
         raw_line := "1 - Low risk [L1-S1, L1-S2]" },
       { key := "2", label := "High risk", description := "",
         matchers := ["L2-S2"],
         raw_line := "2 - High risk [L2-S2]" }] }

/-- A calculate field declaring only one label. -/
def sampleOneLabelCalc : TemplateField :=
  { name := "Bad calc", field_type := .calculate, labels := ["L"] }

/-- A generator's field sequence for the calculate claims. -/
def sampleFields : List TemplateField :=
  [sampleSelectField, sampleSevField, sampleCalcField]

/-- A multiselect field with a single option keyed "1". -/
def sampleMultiField : TemplateField :=
  { name := "Hazard type", field_type := .multiselect,
    options := [{ key := "1", label := "One", description := "",
                  raw_line := "1 - One" }] }

/-- A taxonomy-backed field before injection. -/
def sampleTaxField : TemplateField :=
  { name := "Hazard type", field_type := .multiselect,
    options := [sampleOpt1], uses_hazard_types := true }

/-- Values where the likelihood dependency was supplied as the sentinel
string "TBC" and severity as "2". -/
def valuesTBC : Values := fun n =>
  if n = "Likelihood scoring" then some (.str "TBC")
  else if n = "Severity scoring" then some (.str "2") else none

/-- Values supplying keys "1" and "2" for the two scoring fields. -/
def values12 : Values := fun n =>
  if n = "Likelihood scoring" then some (.str "1")
  else if n = "Severity scoring" then some (.str "2") else none

/-- The empty values mapping. -/
def noValues : Values := fun _ => none

/-- A code-reference field. -/
def sampleCodeField : TemplateField :=
  { name := "Code associated with hazard", field_type := .code }

/-- Values supplying one code reference for the code field. -/
def codeValues : Values := fun n =>
  if n = "Code associated with hazard"
  then some (.list [.str "src/contexts/PatientContext.tsx"]) else none

/-- Values supplying the utility-label multiselect as `[2, 9]` (one key in
the icon table, one not). -/
def iconValues : Values := fun n =>
  if n = "General utility label" then some (.list [.int 2, .int 9]) else none

/-- The icon marker entry as the parser creates it. -/
def sampleIconField : TemplateField := mkMarker "__icon__" .icon

/-- A small template for the end-to-end order claim. -/
def sampleTemplateLines : List String :=
  ["<!-- [icon] -->", "", "### Hazard name", "Enter a short name", "",
   "### Likelihood scoring", "[select] [L]", "1 - Very low: Almost never",
   "TBC", "", "---", "Free prose between sections.", "### Severity scoring",
   "[select] [S]", "1 - Minor: Small"]

/-- A taxonomy file with headings and blanks but no bullet lines. -/
def sampleTaxonomyNoBullets : List String :=
  ["## Categories", "", "nothing listed yet"]

/-- The state of the scanner while collecting the sample select field's
options. -/
def sampleOptState : ParseState :=
  { revFields := [sampleSelectField], current := true, inOpts := true }

/-- A line that matches neither the option grammar (no hyphen separator)
nor the bare `TBC` sentinel. -/
def sampleStrayLine : String := "Pick exactly one of the rows above!"

/-- The scanner's reachable-state invariant: whenever a field is being
extended it is the head of `revFields` and is one of the named kinds
(headers open TEXT fields and type markers only retype them). -/
def stateInv (st : ParseState) : Prop :=
  st.current = true →
    ∃ f r, st.revFields = f :: r ∧ isNamedFieldB f = true

/-! ## Claim theorems -/

/-- **C10.**  A CALCULATE field declaring fewer than two labels resolves to
the diagnostic `"Cannot compute: insufficient labels defined"` for every
values mapping and every field sequence, without raising (the function is
total by construction). -/
theorem calculate_insufficient_labels
    (allFields : List TemplateField) (field_def : TemplateField)
    (values : Values) (h : field_def.labels.length < 2) :
    format_calculate_value allFields field_def values
      = "Cannot compute: insufficient labels defined" := by
  unfold format_calculate_value
  rw [if_pos h]

/-- Witness for C10 at a one-label calculate field. -/
theorem calculate_insufficient_labels_witness :
    sampleOneLabelCalc.labels.length < 2 ∧
      format_calculate_value sampleFields sampleOneLabelCalc noValues
        = "Cannot compute: insufficient labels defined" :=
  ⟨by decide,
   calculate_insufficient_labels sampleFields sampleOneLabelCalc noValues
     (by decide)⟩

/-- **C3.**  Select resolution: an absent value renders `"TBC"`; a supplied
value whose string form equals the key of the first matching option renders
that option's `raw_line`, falling back to the synthesized
`"{key} - {label}: {description}"` only when no raw line was captured; a
value matching no option key renders `"{value} (unrecognised option)"`.
Resolution is a total function — it never fails. -/
theorem select_value_resolution :
    (∀ f : TemplateField, format_select_value f none = "TBC") ∧
    (∀ (f : TemplateField) (v : Value) (opt : FieldOption),
       f.options.find? (fun o => o.key == pyStr v) = some opt →
       format_select_value f (some v) = rawOrSynth opt ∧
       (opt.raw_line ≠ "" → format_select_value f (some v) = opt.raw_line) ∧
       (opt.raw_line = "" → format_select_value f (some v) = synthOption opt)) ∧
    (∀ (f : TemplateField) (v : Value),
       f.options.find? (fun o => o.key == pyStr v) = none →
       format_select_value f (some v) = pyStr v ++ " (unrecognised option)") := by
  have hsel : ∀ (f : TemplateField) (v : Value),
      format_select_value f (some v)
        = match f.options.find? (fun o => o.key == pyStr v) with
          | some opt => rawOrSynth opt
          | none => pyStr v ++ " (unrecognised option)" := fun f v => rfl
  refine ⟨fun f => rfl, fun f v opt h => ?_, fun f v h => ?_⟩
  · have hv : format_select_value f (some v) = rawOrSynth opt := by
      rw [hsel, h]
    refine ⟨hv, fun hraw => ?_, fun hraw => ?_⟩
    · rw [hv]; unfold rawOrSynth; rw [if_neg hraw]
    · rw [hv]; unfold rawOrSynth; rw [if_pos hraw]
  · rw [hsel, h]

/-- Witness for C3: supplying key "2" against the sample select field
renders option 2's exact raw line, and an absent value renders "TBC". -/
theorem select_value_resolution_witness :
    format_select_value sampleSelectField (some (.str "2"))
        = "2 - Low: Unlikely" ∧
      format_select_value sampleSelectField none = "TBC" ∧
      format_select_value sampleSelectField (some (.int 7))
        = "7 (unrecognised option)" :=
  ⟨(select_value_resolution.2.1 sampleSelectField (.str "2") sampleOpt2
      (by decide)).2.1 (by decide),
   select_value_resolution.1 sampleSelectField,
   select_value_resolution.2.2 sampleSelectField (.int 7) (by decide)⟩

/-- **C4.**  Multiselect resolution: an absent or empty sequence renders
`"None selected"`; a non-empty sequence is resolved entrywise (matched
entries contribute the option's raw line or synthesized form, unmatched
entries the literal bullet `"- {value}"`) and joined with newlines.
Resolution is a total function — partial or unknown data never blocks
document production. -/
theorem multiselect_value_resolution :
    (∀ f : TemplateField, format_multiselect_value f none = "None selected") ∧
    (∀ f : TemplateField,
       format_multiselect_value f (some []) = "None selected") ∧
    (∀ (f : TemplateField) (vs : List Value), vs ≠ [] →
       format_multiselect_value f (some vs)
         = String.intercalate "\n" (vs.map (formatMultiselectEntry f))) ∧
    (∀ (f : TemplateField) (v : Value) (opt : FieldOption),
       f.options.find? (fun o => o.key == pyStr v) = some opt →
       formatMultiselectEntry f v = rawOrSynth opt) ∧
    (∀ (f : TemplateField) (v : Value),
       f.options.find? (fun o => o.key == pyStr v) = none →
       formatMultiselectEntry f v = "- " ++ pyStr v) := by
  have hent : ∀ (f : TemplateField) (v : Value),
      formatMultiselectEntry f v
        = match f.options.find? (fun o => o.key == pyStr v) with
          | some opt => rawOrSynth opt
          | none => "- " ++ pyStr v := fun f v => rfl
  refine ⟨fun f => rfl, fun f => rfl, fun f vs hvs => ?_,
    fun f v opt h => ?_, fun f v h => ?_⟩
  · have hms : format_multiselect_value f (some vs)
        = if vs.isEmpty then "None selected"
          else String.intercalate "\n" (vs.map (formatMultiselectEntry f)) := rfl
    rw [hms, if_neg (by simp [List.isEmpty_iff, hvs])]
  · rw [hent, h]
  · rw [hent, h]

/-- Witness for C4: the unresolvable key "Z" renders the literal bullet
`- Z` alongside a matched entry; the empty list renders "None selected". -/
theorem multiselect_value_resolution_witness :
    format_multiselect_value sampleMultiField
        (some [.str "1", .str "Z"]) = "1 - One\n- Z" ∧
      format_multiselect_value sampleMultiField (some []) = "None selected" :=
  ⟨(multiselect_value_resolution.2.2.1 sampleMultiField [.str "1", .str "Z"]
      (List.cons_ne_nil _ _)).trans (by decide),
   multiselect_value_resolution.2.1 sampleMultiField⟩

/-- **C1** is refuted by the code: `_format_calculate_value` short-circuits
only on a missing (`None`) dependency — its `any(v is None ...)` test does
not catch a supplied value equal to the `"TBC"` sentinel, despite the
adjacent comment "Check if any are TBC/None" and despite the sibling
`calculate_risk_score` treating `"TBC"` as unscored.  With a likelihood of
`"TBC"` and severity of `"2"` it builds the composite key `LTBC-S2` and
returns the no-match diagnostic instead of
`"TBC (awaiting scoring of dependencies)"`. -/
theorem calculate_tbc_dependency_not_short_circuited :
    format_calculate_value sampleFields sampleCalcField valuesTBC
        = "No matching risk level for LTBC-S2" ∧
      format_calculate_value sampleFields sampleCalcField valuesTBC
        ≠ "TBC (awaiting scoring of dependencies)" ∧
      calculate_risk_score (some "TBC") (some "2") sampleCalcField = none :=
  ⟨by decide, by decide, by decide⟩

/-- **C2.**  When every label a CALCULATE field declares resolves through
the label index to an owning field with a supplied value, resolution builds
the composite key `"{Label}{value}"`-concatenated in declared label order
and joined by `"-"`, returns the raw (or synthesized) line of the first
option in declaration order whose matcher set contains the key, and the
diagnostic `"No matching risk level for {key}"` when no option matches —
always returning a string, never failing. -/
theorem calculate_composite_key_resolution
    (allFields : List TemplateField) (field_def : TemplateField)
    (values : Values) (resolved : String → String)
    (h1 : 2 ≤ field_def.labels.length)
    (h2 : ∀ lbl ∈ field_def.labels,
      labelValue allFields values lbl = some (resolved lbl))
    (_h3 : ∀ lbl ∈ field_def.labels, resolved lbl ≠ "TBC") :
    format_calculate_value allFields field_def values
      = (match field_def.options.find? (fun opt => opt.matchers.contains
            (String.intercalate "-"
              (field_def.labels.map (fun lbl => lbl ++ resolved lbl)))) with
         | some opt => rawOrSynth opt
         | none => "No matching risk level for " ++ String.intercalate "-"
             (field_def.labels.map (fun lbl => lbl ++ resolved lbl))) := by
  have hany : (field_def.labels.any
      (fun lbl => (labelValue allFields values lbl).isNone)) = false := by
    rw [List.any_eq_false]
    intro lbl hlbl
    rw [h2 lbl hlbl]
    simp
  have hmap : field_def.labels.map
        (fun lbl => lbl ++ (labelValue allFields values lbl).getD "")
      = field_def.labels.map (fun lbl => lbl ++ resolved lbl) :=
    List.map_congr_left (fun lbl hlbl => by rw [h2 lbl hlbl]; rfl)
  unfold format_calculate_value
  rw [if_neg (by omega), if_neg (by simp [hany]), hmap]

/-- Witness for C2: labels `[L, S]` with keys "1","2" produce the composite
key `L1-S2`, which the first option's matcher set contains, so its raw line
is returned; keys "2","1" produce `L2-S1`, which no option matches. -/
theorem calculate_composite_key_resolution_witness :
    format_calculate_value sampleFields sampleCalcField values12
        = "1 - Low risk [L1-S1, L1-S2]" ∧
      format_calculate_value sampleFields sampleCalcField
          (fun n => if n = "Likelihood scoring" then some (.str "2")
            else if n = "Severity scoring" then some (.str "1") else none)
        = "No matching risk level for L2-S1" :=
  ⟨(calculate_composite_key_resolution sampleFields sampleCalcField values12
      (fun lbl => if lbl = "L" then "1" else "2")
      (by decide) (by decide) (by decide)).trans (by decide),
   (calculate_composite_key_resolution sampleFields sampleCalcField
      (fun n => if n = "Likelihood scoring" then some (.str "2")
        else if n = "Severity scoring" then some (.str "1") else none)
      (fun lbl => if lbl = "L" then "2" else "1")
      (by decide) (by decide) (by decide)).trans (by decide)⟩

/-- **C8.**  A named field whose name has no supplied value renders its
field-kind-specific default under the sub-header: TEXT → the placeholder
text, SELECT → "TBC", MULTISELECT → "None selected", CODE →
"No code references yet."; and a CODE field with a non-empty supplied list
renders one backtick-quoted bullet per reference. -/
theorem absent_value_renders_defaults
    (allFields : List TemplateField) (values : Values) (f : TemplateField)
    (habs : values f.name = none) :
    (f.field_type = .text →
       renderField allFields values f
         = ["### " ++ f.name, "", f.placeholder_text, ""] ++ proseTail f) ∧
    (f.field_type = .select →
       renderField allFields values f
         = ["### " ++ f.name, "", "TBC", ""] ++ proseTail f) ∧
    (f.field_type = .multiselect →
       renderField allFields values f
         = ["### " ++ f.name, "", "None selected", ""] ++ proseTail f) ∧
    (f.field_type = .code →
       renderField allFields values f
         = ["### " ++ f.name, "", "No code references yet.", ""]
             ++ proseTail f) ∧
    (∀ (g : TemplateField) (vs : List Value), g.field_type = .code →
       values g.name = some (.list vs) → vs ≠ [] →
       renderField allFields values g
         = ["### " ++ g.name, ""]
             ++ vs.map (fun r => "- `" ++ pyStr r ++ "`") ++ [""]
             ++ proseTail g) := by
  refine ⟨fun ht => ?_, fun ht => ?_, fun ht => ?_, fun ht => ?_,
    fun g vs ht hv hvs => ?_⟩
  · simp [renderField, renderValueBlock, ht, habs]
  · simp [renderField, renderValueBlock, ht, habs, format_select_value]
  · simp [renderField, renderValueBlock, ht, habs]
  · simp [renderField, renderValueBlock, ht, habs]
  · simp [renderField, renderValueBlock, ht, hv, List.isEmpty_iff, hvs]

/-- Witness for C8 at a select field with no supplied value and a code
field with one supplied reference. -/
theorem absent_value_renders_defaults_witness :
    renderField sampleFields noValues sampleSelectField
        = ["### Likelihood scoring", "", "TBC", ""] ∧
      renderField sampleFields codeValues sampleCodeField
        = ["### Code associated with hazard", "",
           "- `src/contexts/PatientContext.tsx`", ""] :=
  ⟨((absent_value_renders_defaults sampleFields noValues sampleSelectField
      rfl).2.1 rfl).trans (by decide),
   ((absent_value_renders_defaults sampleFields codeValues sampleSelectField
      rfl).2.2.2.2 sampleCodeField [.str "src/contexts/PatientContext.tsx"]
      rfl rfl (List.cons_ne_nil _ _)).trans (by decide)⟩

/-- **C9.**  The icon marker entry renders one glyph per entry of the
utility-label list (through the fixed lookup table, `❓` for keys outside
it) when a non-empty list is supplied, and a single caution glyph when the
value is absent, an empty list, or not a list. -/
theorem icon_line_rendering
    (allFields : List TemplateField) (values : Values) (f : TemplateField)
    (hicon : f.field_type = .icon) :
    (∀ us : List Value, values "General utility label" = some (.list us) →
       us ≠ [] →
       renderField allFields values f
         = ["<!-- " ++ String.intercalate " " (us.map iconGlyph) ++ " -->",
            ""]) ∧
    (values "General utility label" = none →
       renderField allFields values f = ["<!-- ⚠️ -->", ""]) ∧
    (values "General utility label" = some (.list []) →
       renderField allFields values f = ["<!-- ⚠️ -->", ""]) ∧
    (∀ s, values "General utility label" = some (.str s) →
       renderField allFields values f = ["<!-- ⚠️ -->", ""]) ∧
    (∀ n : Int, values "General utility label" = some (.int n) →
       renderField allFields values f = ["<!-- ⚠️ -->", ""]) := by
  refine ⟨fun us hv hus => ?_, fun hv => ?_, fun hv => ?_,
    fun s hv => ?_, fun n hv => ?_⟩
  · simp [renderField, hicon, hv, List.isEmpty_iff, hus]
  · simp [renderField, hicon, hv]
  · simp [renderField, hicon, hv]
  · simp [renderField, hicon, hv]
  · simp [renderField, hicon, hv]

/-- Witness for C9: the list `[2, 9]` renders the "new hazard" glyph and
the unknown-key glyph; the empty values mapping renders the caution glyph. -/
theorem icon_line_rendering_witness :
    renderField sampleFields iconValues sampleIconField
        = ["<!-- 🆕 ❓ -->", ""] ∧
      renderField sampleFields noValues sampleIconField
        = ["<!-- ⚠️ -->", ""] :=
  ⟨((icon_line_rendering sampleFields iconValues sampleIconField rfl).1
      [.int 2, .int 9] rfl (List.cons_ne_nil _ _)).trans (by decide),
   (icon_line_rendering sampleFields noValues sampleIconField rfl).2.1 rfl⟩

/-- The taxonomy fold, generalized over its accumulator, equals the
spec-side filter. -/
theorem parse_hazard_types_go (lines : List String) : ∀ acc : List String,
    lines.foldl
        (fun types line =>
          if strStartsWith (pyStrip line) "- " then
            types ++ [pyStrip (strDrop (pyStrip line) 2)]
          else types)
        acc
      = acc ++ specTaxonomyCategories lines := by
  induction lines with
  | nil => intro acc; simp [specTaxonomyCategories]
  | cons l ls ih =>
    intro acc
    by_cases h : strStartsWith (pyStrip l) "- " = true
    · simp [specTaxonomyCategories, List.filterMap_cons, h, ih,
        List.append_assoc]
    · have h' : strStartsWith (pyStrip l) "- " = false := by simpa using h
      simp [specTaxonomyCategories, List.filterMap_cons, h', ih]

/-- **C6.**  Taxonomy loading: `parse_hazard_types` keeps exactly the
(stripped) lines beginning with `"- "`, marker removed, in declaration
order; at construction every `uses_hazard_types` field's option list is
replaced by one option per category with `key = label = category`, empty
description and `raw_line = "- {category}"`, other fields are untouched;
a taxonomy with zero bullet lines therefore injects zero options. -/
theorem taxonomy_parse_and_injection :
    (∀ lines, parse_hazard_types lines = specTaxonomyCategories lines) ∧
    (∀ (types : List String) (f : TemplateField), f.uses_hazard_types = true →
       injectField types f = { f with options := types.map mkTaxonomyOption }) ∧
    (∀ (types : List String) (f : TemplateField),
       f.uses_hazard_types = false → injectField types f = f) ∧
    (∀ (types : List String) (fields : List TemplateField),
       injectHazardTypes types fields = fields.map (injectField types)) ∧
    (∀ (lines : List String) (f : TemplateField),
       (∀ l ∈ lines, strStartsWith (pyStrip l) "- " = false) →
       f.uses_hazard_types = true →
       (injectField (parse_hazard_types lines) f).options = []) := by
  have hparse : ∀ lines,
      parse_hazard_types lines = specTaxonomyCategories lines := by
    intro lines
    simpa using parse_hazard_types_go lines []
  refine ⟨hparse, fun types f hf => ?_, fun types f hf => ?_,
    fun types fields => rfl, fun lines f hl hf => ?_⟩
  · unfold injectField
    rw [if_pos hf]
  · unfold injectField
    rw [if_neg (by simp [hf])]
  · have hempty : specTaxonomyCategories lines = [] := by
      unfold specTaxonomyCategories
      rw [List.filterMap_eq_nil_iff]
      intro l hlmem
      rw [hl l hlmem]
      simp
    unfold injectField
    rw [if_pos hf, hparse, hempty]
    rfl

/-- Witness for C6: a taxonomy file with headings and prose but no bullet
lines parses to no categories and injects no options. -/
theorem taxonomy_parse_and_injection_witness :
    parse_hazard_types sampleTaxonomyNoBullets = [] ∧
      (injectField (parse_hazard_types sampleTaxonomyNoBullets)
          sampleTaxField).options = [] ∧
      parse_hazard_types ["## Cats", "- WrongPatient", "text", "- WrongDose "]
        = ["WrongPatient", "WrongDose"] :=
  ⟨(taxonomy_parse_and_injection.1 sampleTaxonomyNoBullets).trans (by decide),
   taxonomy_parse_and_injection.2.2.2.2 sampleTaxonomyNoBullets sampleTaxField
     (by decide) rfl,
   (taxonomy_parse_and_injection.1
       ["## Cats", "- WrongPatient", "text", "- WrongDose "]).trans (by decide)⟩

/-- **C5.**  While collecting a typed field's options, a line that matches
neither the option grammar nor the bare `TBC` sentinel (and is not one of
the scanner's structural lines) is appended to the current field's trailing
prose, leaving every other field untouched — the parse continues and still
returns a field sequence (the scanner is a total function). -/
theorem unmatched_option_line_becomes_prose
    (st : ParseState) (f : TemplateField) (r : List TemplateField)
    (line : String)
    (hrev : st.revFields = f :: r) (hcur : st.current = true)
    (hopts : st.inOpts = true)
    (h1 : strStartsWith (pyStrip line) "<!-- [icon] -->" = false)
    (h2 : pyStrip line ≠ "---")
    (h3 : strStartsWith (pyStrip line) "### " = false)
    (h4 : pyStrip line ≠ "")
    (h5 : matchTypeMarker (pyStrip line) = none)
    (h6 : pyStrip line ≠ "[hazard-types]")
    (h7 : matchOptionLine (pyStrip line) = none)
    (h8 : pyStrip line ≠ "TBC") :
    parseStep st line
      = { revFields :=
            { f with prose_lines := f.prose_lines ++ [pyStrip line] } :: r,
          current := st.current, inOpts := st.inOpts } := by
  simp only [parseStep]
  rw [if_neg (by simp [h1]), if_neg h2, if_neg (by simp [h3]), if_neg h4,
    if_pos hcur, hrev]
  simp only [parseFieldLine, h5]
  rw [if_neg h6, if_pos hopts]
  simp only [h7]
  rw [if_neg h8]
  simp only [proseOrPlaceholder, hopts]
  rw [if_neg (by simp)]

/-- Witness for C5: a stray instruction line inside a select field's option
block fails the option grammar and lands in the field's trailing prose. -/
theorem unmatched_option_line_becomes_prose_witness :
    matchOptionLine (pyStrip sampleStrayLine) = none ∧
      parseStep sampleOptState sampleStrayLine
        = { revFields :=
              [{ sampleSelectField with prose_lines := [sampleStrayLine] }],
            current := true, inOpts := true } :=
  ⟨by decide,
   unmatched_option_line_becomes_prose sampleOptState sampleSelectField []
     sampleStrayLine rfl rfl rfl (by decide) (by decide) (by decide)
     (by decide) (by decide) (by decide) (by decide) (by decide)⟩

/-- Two prefix tests with different first characters cannot both succeed. -/
theorem isPrefixOf_conflict {a b : Char} (hab : a ≠ b) {l₁ l₂ cs : List Char}
    (h : (a :: l₁).isPrefixOf cs = true) :
    (b :: l₂).isPrefixOf cs = false := by
  cases cs with
  | nil => simp [List.isPrefixOf] at h
  | cons c cs =>
    simp only [List.isPrefixOf, Bool.and_eq_true, beq_iff_eq] at h
    have hbc : b ≠ c := fun hbc => hab (h.1.trans hbc.symm)
    simp [List.isPrefixOf, hbc]

/-- An icon marker line is not a header line. -/
theorem icon_not_header {s : String}
    (h : strStartsWith s "<!-- [icon] -->" = true) :
    strStartsWith s "### " = false := by
  have h' : ('<' :: "!-- [icon] -->".data).isPrefixOf s.data = true := h
  exact isPrefixOf_conflict (by decide) h'

/-- `namedNames` distributes over append. -/
theorem namedNames_append (a b : List TemplateField) :
    namedNames (a ++ b) = namedNames a ++ namedNames b := by
  simp [namedNames, List.filter_append]

/-- `namedNames` of a reversed cons. -/
theorem namedNames_rev_cons (f : TemplateField) (l : List TemplateField) :
    namedNames ((f :: l).reverse) = namedNames l.reverse ++ namedNames [f] := by
  rw [List.reverse_cons, namedNames_append]

/-- The type marker only produces the four named option-bearing kinds. -/
theorem matchTypeMarker_types {s : String} {ft : FieldType} {rem : String}
    (h : matchTypeMarker s = some (ft, rem)) :
    ft = .multiselect ∨ ft = .select ∨ ft = .calculate ∨ ft = .code := by
  unfold matchTypeMarker at h
  split at h
  · simp_all
  · split at h
    · simp_all
    · split at h
      · simp_all
      · split at h
        · simp_all
        · simp_all

/-- The in-field branch of the scanner only rewrites the head field,
preserving its name and leaving a named field named. -/
theorem parseFieldLine_shape (st : ParseState) (f : TemplateField)
    (r : List TemplateField) (stripped : String) :
    ∃ (f' : TemplateField) (b : Bool),
      parseFieldLine st f r stripped
          = ⟨f' :: r, st.current, b⟩ ∧
        f'.name = f.name ∧
        (isNamedFieldB f = true → isNamedFieldB f' = true) := by
  unfold parseFieldLine
  cases hm : matchTypeMarker stripped with
  | some p =>
    obtain ⟨ft, rem⟩ := p
    refine ⟨_, true, rfl, rfl, fun _ => ?_⟩
    rcases matchTypeMarker_types hm with h | h | h | h <;> subst h <;> rfl
  | none =>
    by_cases h6 : stripped = "[hazard-types]"
    · rw [if_pos h6]
      exact ⟨_, st.inOpts, rfl, rfl, fun hn => hn⟩
    · rw [if_neg h6]
      by_cases hio : st.inOpts = true
      · rw [if_pos hio]
        cases ho : matchOptionLine stripped with
        | some q =>
          obtain ⟨k, l2, d, m⟩ := q
          exact ⟨_, st.inOpts, rfl, rfl, fun hn => hn⟩
        | none =>
          by_cases ht : stripped = "TBC"
          · rw [if_pos ht]
            exact ⟨_, st.inOpts, rfl, rfl, fun hn => hn⟩
          · rw [if_neg ht]
            unfold proseOrPlaceholder
            by_cases hp : f.field_type = FieldType.text ∧ st.inOpts = false
            · rw [if_pos hp]
              exact ⟨_, st.inOpts, rfl, rfl, fun hn => hn⟩
            · rw [if_neg hp]
              exact ⟨_, st.inOpts, rfl, rfl, fun hn => hn⟩
      · rw [if_neg hio]
        unfold proseOrPlaceholder
        by_cases hp : f.field_type = FieldType.text ∧ st.inOpts = false
        · rw [if_pos hp]
          exact ⟨_, st.inOpts, rfl, rfl, fun hn => hn⟩
        · rw [if_neg hp]
          exact ⟨_, st.inOpts, rfl, rfl, fun hn => hn⟩

/-- The prose-outside branch never adds or renames a named field and keeps
the `current` flag. -/
theorem proseOutside_named (st : ParseState) (stripped : String) :
    namedNames (proseOutside st stripped).revFields.reverse
        = namedNames st.revFields.reverse ∧
      (proseOutside st stripped).current = st.current := by
  obtain ⟨revF, cur, io⟩ := st
  cases revF with
  | nil =>
    refine ⟨?_, rfl⟩
    simp [proseOutside, namedNames, mkProse, isNamedFieldB]
  | cons last rest =>
    by_cases hp : last.field_type = FieldType.prose
    · refine ⟨?_, by simp [proseOutside, if_pos hp]⟩
      simp only [proseOutside, if_pos hp]
      rw [namedNames_rev_cons, namedNames_rev_cons]
      have h1 : isNamedFieldB last = false := by simp [isNamedFieldB, hp]
      have h2 : isNamedFieldB
          { last with prose_lines := last.prose_lines ++ [stripped] } = false :=
        h1
      simp [h1, h2, namedNames]
    · by_cases hs : last.field_type = FieldType.separator
      · refine ⟨?_, by simp [proseOutside, if_neg hp, if_pos hs]⟩
        simp only [proseOutside, if_neg hp, if_pos hs]
        rw [namedNames_rev_cons (mkProse stripped)]
        simp [namedNames, mkProse, isNamedFieldB]
      · refine ⟨?_, by simp [proseOutside, if_neg hp, if_neg hs]⟩
        simp only [proseOutside, if_neg hp, if_neg hs]
        rw [namedNames_rev_cons (mkProse stripped)]
        simp [namedNames, mkProse, isNamedFieldB]

/-- One scanner step adds exactly the header names the line contributes and
preserves the reachable-state invariant. -/
theorem parseStep_named (st : ParseState) (line : String)
    (hinv : stateInv st) :
    namedNames (parseStep st line).revFields.reverse
        = namedNames st.revFields.reverse ++ (headerName line).toList ∧
      stateInv (parseStep st line) := by
  by_cases h1 : strStartsWith (pyStrip line) "<!-- [icon] -->" = true
  · have hstep : parseStep st line
        = { revFields := mkMarker "__icon__" .icon :: st.revFields,
            current := false, inOpts := false } := by
      simp only [parseStep]
      rw [if_pos h1]
    have hh : headerName line = none := by
      simp [headerName, icon_not_header h1]
    rw [hstep, hh]
    refine ⟨?_, fun hc => absurd hc (by simp)⟩
    rw [namedNames_rev_cons]
    simp [namedNames, mkMarker, isNamedFieldB]
  · have h1' : strStartsWith (pyStrip line) "<!-- [icon] -->" = false := by
      simpa using h1
    by_cases h2 : pyStrip line = "---"
    · have hstep : parseStep st line
          = { revFields := mkMarker "__separator__" .separator :: st.revFields,
              current := false, inOpts := false } := by
        simp only [parseStep]
        rw [if_neg (by simp [h1']), if_pos h2]
      have hh : headerName line = none := by
        have hns : strStartsWith "---" "### " = false := by decide
        simp [headerName, h2, hns]
      rw [hstep, hh]
      refine ⟨?_, fun hc => absurd hc (by simp)⟩
      rw [namedNames_rev_cons]
      simp [namedNames, mkMarker, isNamedFieldB]
    · by_cases h3 : strStartsWith (pyStrip line) "### " = true
      · have hstep : parseStep st line
            = { revFields :=
                  { name := pyStrip (strDrop (pyStrip line) 4),
                    field_type := .text } :: st.revFields,
                current := true, inOpts := false } := by
          simp only [parseStep]
          rw [if_neg (by simp [h1']), if_neg h2, if_pos h3]
        have hh : headerName line
            = some (pyStrip (strDrop (pyStrip line) 4)) := by
          simp [headerName, h3]
        rw [hstep, hh]
        constructor
        · rw [namedNames_rev_cons]
          simp [namedNames, isNamedFieldB]
        · exact fun _ => ⟨_, st.revFields, rfl, rfl⟩
      · have h3' : strStartsWith (pyStrip line) "### " = false := by
          simpa using h3
        have hh : headerName line = none := by
          simp [headerName, h3']
        by_cases h4 : pyStrip line = ""
        · have hstep : parseStep st line = st := by
            simp only [parseStep]
            rw [if_neg (by simp [h1']), if_neg h2, if_neg (by simp [h3']),
              if_pos h4]
          rw [hstep, hh]
          exact ⟨by simp, hinv⟩
        · by_cases h5 : st.current = true
          · obtain ⟨f, r, hrev, hnamed⟩ := hinv h5
            have hstep : parseStep st line
                = parseFieldLine st f r (pyStrip line) := by
              simp only [parseStep]
              rw [if_neg (by simp [h1']), if_neg h2, if_neg (by simp [h3']),
                if_neg h4, if_pos h5, hrev]
            obtain ⟨f', b, heq, hname, hnamed'⟩ :=
              parseFieldLine_shape st f r (pyStrip line)
            rw [hstep, heq, hh]
            constructor
            · rw [hrev, namedNames_rev_cons, namedNames_rev_cons]
              have hf' : isNamedFieldB f' = true := hnamed' hnamed
              simp [namedNames, hf', hnamed, hname]
            · exact fun _ => ⟨f', r, rfl, hnamed' hnamed⟩
          · have h5' : st.current = false := by simpa using h5
            have hstep : parseStep st line
                = proseOutside st (pyStrip line) := by
              simp only [parseStep]
              rw [if_neg (by simp [h1']), if_neg h2, if_neg (by simp [h3']),
                if_neg h4, if_neg (by simp [h5'])]
            obtain ⟨hn, hcur'⟩ := proseOutside_named st (pyStrip line)
            rw [hstep, hh]
            refine ⟨by simp [hn], fun hc => ?_⟩
            rw [hcur', h5'] at hc
            cases hc

/-- Scanning a line list appends exactly its header names, in order. -/
theorem parseLinesGo_named (lines : List String) : ∀ st : ParseState,
    stateInv st →
    namedNames (parseLinesGo st lines).revFields.reverse
        = namedNames st.revFields.reverse ++ lines.filterMap headerName ∧
      stateInv (parseLinesGo st lines) := by
  induction lines with
  | nil => exact fun st h => ⟨by simp [parseLinesGo], h⟩
  | cons l ls ih =>
    intro st h
    obtain ⟨h1, h2⟩ := parseStep_named st l h
    obtain ⟨ih1, ih2⟩ := ih (parseStep st l) h2
    refine ⟨?_, ih2⟩
    show namedNames (parseLinesGo (parseStep st l) ls).revFields.reverse = _
    rw [ih1, h1, List.filterMap_cons]
    cases hh : headerName l <;> simp [List.append_assoc]

/-- Every named field's rendered block opens with its sub-header followed
by a blank line. -/
theorem renderField_named (allFields : List TemplateField) (values : Values)
    (f : TemplateField) (h : isNamedFieldB f = true) :
    ∃ rest, renderField allFields values f
      = ("### " ++ f.name) :: "" :: rest := by
  have h1 : ¬ f.field_type = FieldType.icon := by
    intro e; simp [isNamedFieldB, e] at h
  have h2 : ¬ f.field_type = FieldType.separator := by
    intro e; simp [isNamedFieldB, e] at h
  have h3 : ¬ f.field_type = FieldType.prose := by
    intro e; simp [isNamedFieldB, e] at h
  unfold renderField
  rw [if_neg h1, if_neg h2, if_neg h3]
  exact ⟨renderValueBlock allFields values f ++ proseTail f, rfl⟩

/-- The named sub-headers, in field order, form a sublist of the rendered
body. -/
theorem named_subheaders_sublist (allF : List TemplateField)
    (values : Values) : ∀ fields : List TemplateField,
    List.Sublist
      ((fields.filter isNamedFieldB).map (fun f => "### " ++ f.name))
      ((fields.map (renderField allF values)).flatten) := by
  intro fields
  induction fields with
  | nil => simp
  | cons f fs ih =>
    by_cases h : isNamedFieldB f = true
    · obtain ⟨rest, hrest⟩ := renderField_named allF values f h
      simp only [List.map_cons, List.flatten_cons, hrest,
        List.filter_cons_of_pos h, List.map_cons]
      exact List.Sublist.cons₂ _ (ih.trans (List.sublist_append_right _ _))
    · have h' : isNamedFieldB f = false := by simpa using h
      have hf : List.filter isNamedFieldB (f :: fs)
          = List.filter isNamedFieldB fs := by
        simp [List.filter_cons, h']
      rw [List.map_cons, List.flatten_cons, hf]
      exact ih.trans (List.sublist_append_right _ _)

/-- **C7.**  Order preservation end to end: the parsed sequence's named
fields carry exactly the template's `### ` header names in template order;
the generated document contains — in order — the optional hazard-id header
followed by one `### {name}` sub-header per named field in that same
order; every named field's block is the sub-header followed by a blank
line; and a supplied non-empty hazard id opens the document as `# {id}`
plus a blank line. -/
theorem field_order_preserved_and_rendered :
    (∀ lines : List String,
       namedNames (parse_template lines) = lines.filterMap headerName) ∧
    (∀ (allFields : List TemplateField) (values : Values)
       (hazard_id : Option String),
       List.Sublist
         (hazardHeader hazard_id
           ++ (allFields.filter isNamedFieldB).map (fun f => "### " ++ f.name))
         (generate_lines allFields values hazard_id)) ∧
    (∀ (allFields : List TemplateField) (values : Values) (f : TemplateField),
       isNamedFieldB f = true →
       ∃ rest, renderField allFields values f
         = ("### " ++ f.name) :: "" :: rest) ∧
    (∀ (allFields : List TemplateField) (values : Values) (h : String),
       h ≠ "" → ∃ body,
         generate_lines allFields values (some h)
           = ("# " ++ h) :: "" :: body) := by
  refine ⟨fun lines => ?_, fun allF values hid => ?_,
    renderField_named, fun allF values h hne => ?_⟩
  · have hstart : stateInv ⟨[], false, false⟩ := fun hc => by cases hc
    have := (parseLinesGo_named lines ⟨[], false, false⟩ hstart).1
    simpa [parse_template, namedNames] using this
  · exact (named_subheaders_sublist allF values allF).append_left _
  · refine ⟨(allF.map (renderField allF values)).flatten, ?_⟩
    simp only [generate_lines, hazardHeader]
    rw [if_neg hne]
    rfl

/-- Witness for C7 on a concrete template: three headers parse to three
named fields in template order; the generated document carries the
hazard-id header and the three sub-headers in that order. -/
theorem field_order_preserved_and_rendered_witness :
    namedNames (parse_template sampleTemplateLines)
        = ["Hazard name", "Likelihood scoring", "Severity scoring"] ∧
      List.Sublist
        (hazardHeader (some "HAZ-001")
          ++ ((parse_template sampleTemplateLines).filter isNamedFieldB).map
            (fun f => "### " ++ f.name))
        (generate_lines (parse_template sampleTemplateLines) noValues
          (some "HAZ-001")) ∧
      (∃ rest, renderField sampleFields noValues sampleSelectField
        = "### Likelihood scoring" :: "" :: rest) ∧
      (∃ body, generate_lines sampleFields noValues (some "HAZ-001")
        = "# HAZ-001" :: "" :: body) :=
  ⟨(field_order_preserved_and_rendered.1 sampleTemplateLines).trans
     (by decide),
   field_order_preserved_and_rendered.2.1
     (parse_template sampleTemplateLines) noValues (some "HAZ-001"),
   field_order_preserved_and_rendered.2.2.1 sampleFields noValues
     sampleSelectField rfl,
   field_order_preserved_and_rendered.2.2.2 sampleFields noValues "HAZ-001"
     (by decide)⟩
